import Mathlib

/-!
Verification development for the MedDocAssistant backend
(`Backend/app.py`): a single FastAPI endpoint `POST /api/query` that
validates a symptom string, queries the Europe PMC search service,
optionally re-ranks hits by embedding similarity, and assembles a
summary / matches / citations payload.

The Python module is shallowly embedded below.  JSON values decoded from
the upstream response body are modelled by the inductive `Json`; the
dynamic Python operations the handler applies to them (`dict.get`,
truthiness-based `or`, iteration, `str()` conversion inside f-strings)
are modelled by `pyGetD`, `pyOr`, `pyIter` and `pyStr`, each total or
returning `Except` where the Python operation can raise.  The outbound
HTTP call and the embedding model are external collaborators and enter
as oracle parameters (`FetchResult`, `RankOutcome`, the load outcome of
`get_embedding_model`).
-/

/-- A JSON value as decoded by `r.json()` in `fetch_europepmc`.
Numbers are modelled as integers (no claim involves fractional JSON
numbers); an object is a key/value list looked up by first match. -/
inductive Json where
  | null
  | bool (b : Bool)
  | num (n : Int)
  | str (s : String)
  | arr (xs : List Json)
  | obj (fs : List (String × Json))

/-- Python truthiness of a decoded JSON value, as used by the `or`
fallback chains in the hit-mapping loop (`hit.get("abstractText") or ""`
etc.): `None`, `False`, `0`, `""`, `[]` and `{}` are falsy. -/
def Json.truthy : Json → Bool
  | .null => false
  | .bool b => b
  | .num n => decide (n ≠ 0)
  | .str s => !s.isEmpty
  | .arr xs => !xs.isEmpty
  | .obj fs => !fs.isEmpty

/-- Python `a or b` on decoded JSON values: `a` if truthy, else `b`. -/
def pyOr (a b : Json) : Json := if a.truthy then a else b

/-- Python `x.get(k, d)`: succeeds only when `x` is a mapping (returns
the value bound to `k`, or `d` when the key is absent); on any non-dict
value the attribute access raises `AttributeError`, which the handler
does not catch. -/
def pyGetD (j : Json) (k : String) (d : Json) : Except String Json :=
  match j with
  | .obj fs => .ok ((fs.lookup k).getD d)
  | _ => .error "AttributeError: get on non-dict"

/-- Python `x.get(k)` with its implicit default `None`. -/
def pyGet (j : Json) (k : String) : Except String Json :=
  pyGetD j k Json.null

/-- Python iteration `for hit in x`: lists yield their elements, strings
their characters, dicts their keys; `None`, booleans and numbers raise
`TypeError`. -/
def pyIter : Json → Except String (List Json)
  | .arr xs => .ok xs
  | .str s => .ok (s.toList.map fun c => Json.str (String.singleton c))
  | .obj fs => .ok (fs.map fun kv => Json.str kv.1)
  | _ => .error "TypeError: object is not iterable"

mutual

/-- Python `repr` of a decoded JSON value (used by `str` on containers).
Strings are rendered between single quotes; escaping of quote
characters inside the string is not modelled (no claim depends on it). -/
def pyRepr : Json → String
  | .null => "None"
  | .bool true => "True"
  | .bool false => "False"
  | .num n => toString n
  | .str s => "\x27" ++ s ++ "\x27"
  | .arr xs => "[" ++ pyReprSeq xs ++ "]"
  | .obj fs => "\x7b" ++ pyReprFields fs ++ "\x7d"

/-- Comma-joined `repr` of the elements of a Python list. -/
def pyReprSeq : List Json → String
  | [] => ""
  | [x] => pyRepr x
  | x :: xs => pyRepr x ++ ", " ++ pyReprSeq xs

/-- Comma-joined `repr` of the entries of a Python dict. -/
def pyReprFields : List (String × Json) → String
  | [] => ""
  | [(k, v)] => "\x27" ++ k ++ "\x27: " ++ pyRepr v
  | (k, v) :: fs => "\x27" ++ k ++ "\x27: " ++ pyRepr v ++ ", " ++ pyReprFields fs

end

/-- Python `str()` of a decoded JSON value, as applied by the f-strings
in the handler (`f"https://europepmc.org/article/pmc/{pmcid}"` and the
citation format): `None ↦ "None"`, strings unchanged, containers via
`repr`. -/
def pyStr : Json → String
  | .str s => s
  | j => pyRepr j

/-- Python `s[:n]`: the first `n` characters of `s` (all of `s` when it
is shorter).  Modelled directly on the character list so that it
computes by structural recursion. -/
def pySlice (s : String) (n : Nat) : String := ⟨s.data.take n⟩

/-- Python `s.strip()` (line 52): drop whitespace from both ends.
Modelled directly on the character list so that it computes by
structural recursion. -/
def pyStrip (s : String) : String :=
  ⟨((s.data.dropWhile Char.isWhitespace).reverse.dropWhile Char.isWhitespace).reverse⟩

/-- One entry of the `results` list built in the hit-mapping loop of
`query_literature` (the dict literal at lines 72–80 of `app.py`).
`title`, `journal`, `year` and `url` keep the dynamic (JSON) type they
have in Python; `abstract` and `snippet` are strings because the slice
`abstract[:400]` would have raised on any truthy non-string value. -/
structure MatchRecord where
  title : Json
  abstract : String
  snippet : String
  journal : Json
  year : Json
  source : String
  url : Json

instance : Inhabited MatchRecord :=
  ⟨{ title := Json.null, abstract := "", snippet := "", journal := Json.null,
     year := Json.null, source := "", url := Json.null }⟩

/-- The body of the `for hit in ...` loop (lines 64–80): maps one raw
hit to a `MatchRecord`.  Raises (`Except.error`) exactly where Python
would: `hit.get` on a non-dict hit, or slicing a truthy non-string
`abstractText`. -/
def parseHit (hit : Json) : Except String MatchRecord := do
  let title ← pyGet hit "title"
  let abstractJ := pyOr (← pyGet hit "abstractText") (Json.str "")
  match abstractJ with
  | .str abstract => do
      let journal := pyOr (← pyGet hit "journalTitle") (Json.str "")
      let year := pyOr (← pyGet hit "pubYear") (Json.str "")
      let pmcid := pyOr (← pyGet hit "pmcid") (← pyGet hit "id")
      let url := pyOr (← pyGet hit "source")
        (Json.str ("https://europepmc.org/article/pmc/" ++ pyStr pmcid))
      .ok { title := title
            abstract := abstract
            snippet := pySlice abstract 400 ++
              (if abstract.length > 400 then "..." else "")
            journal := journal
            year := year
            source := "EuropePMC"
            url := url }
  | _ => .error "TypeError: slice of non-string abstract"

/-- The text appended to `abstracts` for one match
(`abstracts.append(abstract or title or "")`, line 81). -/
def rankText (m : MatchRecord) : Json :=
  pyOr (Json.str m.abstract) (pyOr m.title (Json.str ""))

/-- The whole hit-mapping loop over a list of raw hits; an error on any
hit aborts the request (the loop is not inside a `try`). -/
def parseHits : List Json → Except String (List MatchRecord)
  | [] => .ok []
  | h :: t => do
      let m ← parseHit h
      let ms ← parseHits t
      .ok (m :: ms)

/-- Extraction of the raw hit list from the decoded response body:
`data.get("resultList", {}).get("result", [])` followed by iteration
(line 64). -/
def hitList (data : Json) : Except String (List Json) := do
  let rl ← pyGetD data "resultList" (Json.obj [])
  let res ← pyGetD rl "result" (Json.arr [])
  pyIter res

/-- Lines 62–81 of `query_literature`: raw hits extracted from `data`
and mapped through the loop body. -/
def extractResults (data : Json) : Except String (List MatchRecord) := do
  let hits ← hitList data
  parseHits hits

/-- The request model (`class QueryRequest(BaseModel)`): pydantic
validates `symptoms : str` and `top_k : int` with default `5`; no
further constraint (in particular no sign constraint) is declared. -/
structure QueryRequest where
  symptoms : String
  top_k : Int := 5

/-- Outcome of `fetch_europepmc` as observed by the handler: either a
decoded JSON body, or an exception `e` (timeout, connection failure,
`raise_for_status` on a non-2xx reply, or a JSON decode error) whose
`str(e)` is the carried message. -/
inductive FetchResult where
  | ok (data : Json)
  | fail (msg : String)

/-- Outcome of the embedding step for one request, covering lines
85–95: `unavailable` when `get_embedding_model()` returned `None`;
`failed` when any exception was raised inside the `try` while encoding
or scoring; `scores ss` when a similarity score list was computed (one
score per abstract in abstract order). -/
inductive RankOutcome where
  | unavailable
  | failed
  | scores (ss : List ℚ)

/-- The comparison used to model
`sorted(range(len(results)), key=lambda i: scores[i], reverse=True)`:
index `i` may precede index `j` exactly when `scores[j] ≤ scores[i]`.
A stable sort with this relation is sorted by descending score with
ties kept in original order, which is precisely the documented
behaviour of Python `sorted` with `reverse=True`. -/
def scoreLe (ss : List ℚ) (i j : Nat) : Bool :=
  decide (ss.getD j 0 ≤ ss.getD i 0)

/-- The index permutation `order` of line 97, as the stable merge sort
of `range n` under `scoreLe`.  The `getD` default is immaterial: it is
only reachable when `scores` is shorter than `results`, and that case
is diverted before `rankOrder` is consulted (Python raises `IndexError`
inside `sorted`, caught by the bare `except`). -/
def rankOrder (ss : List ℚ) (n : Nat) : List Nat :=
  (List.range n).mergeSort (scoreLe ss)

/-- Lines 96–98: reorder `results` by descending score.  When the score
list is shorter than `results`, the key lambda raises `IndexError`,
the enclosing `except` swallows it, and the original order is kept. -/
def applyRanking (results : List MatchRecord) (ss : List ℚ) : List MatchRecord :=
  if results.length ≤ ss.length then
    (rankOrder ss results.length).map fun i => results.getD i default
  else results

/-- The match list after step 2 (lines 83–101): ranking applies only
when a model was available, no exception occurred, and `abstracts` is
non-empty; every other outcome leaves the original order. -/
def finalResults (results0 : List MatchRecord) (rank : RankOutcome) : List MatchRecord :=
  match rank with
  | .scores ss =>
      if !(results0.map rankText).isEmpty then applyRanking results0 ss
      else results0
  | _ => results0

/-- The placeholder summary of lines 106–109, with `{}` filled by
`len(results)`. -/
def summary_placeholder (n : Nat) : String :=
  "SUMMARY (placeholder): Found " ++ toString n ++
    " articles. Replace this with LLM-generated educational summary that cites sources."

/-- One citation string (line 114):
`f"{r['title']} — {r['journal']} ({r['year']}) — {r['url']}"`. -/
def citationOf (r : MatchRecord) : String :=
  pyStr r.title ++ " — " ++ pyStr r.journal ++ " (" ++ pyStr r.year ++ ") — " ++
    pyStr r.url

/-- Outcome of one request as seen by the client: the JSON payload of
line 115, an `HTTPException` with status and detail, or an uncaught
exception (FastAPI's generic 500). -/
inductive ApiResult where
  | success (summary : String) (matchList : List MatchRecord) (citations : List String)
  | httpError (status : Nat) (detail : String)
  | internalError (msg : String)

/-- The `POST /api/query` handler (lines 50–119).  `fetch` is the
outcome oracle for `fetch_europepmc`, applied to the stripped symptom
text and `req.top_k` exactly as on line 58; `rank` is the outcome of
the embedding step. -/
def query_literature (req : QueryRequest) (fetch : String → Int → FetchResult)
    (rank : RankOutcome) : ApiResult :=
  let symptoms := pyStrip req.symptoms
  if symptoms = "" then ApiResult.httpError 400 "No symptoms provided"
  else
    match fetch symptoms req.top_k with
    | .fail msg => ApiResult.httpError 502 msg
    | .ok data =>
        match extractResults data with
        | .error msg => ApiResult.internalError msg
        | .ok results0 =>
            let results := finalResults results0 rank
            ApiResult.success (summary_placeholder results.length) results
              (results.map citationOf)

/-- Matches of a response (empty on error responses). -/
def responseMatches : ApiResult → List MatchRecord
  | .success _ m _ => m
  | _ => []

/-- Citations of a response (empty on error responses). -/
def responseCitations : ApiResult → List String
  | .success _ _ c => c
  | _ => []

/-- Summary of a response (empty on error responses). -/
def responseSummary : ApiResult → String
  | .success s _ _ => s
  | _ => ""

/-- Whether a response is a 200 payload. -/
def isSuccess : ApiResult → Bool
  | .success _ _ _ => true
  | _ => false

/-- Handle to a loaded sentence-transformers model (opaque). -/
structure SentenceTransformer where
  name : String

/-- The module-level state read and written by `get_embedding_model`:
the globals `EMB_MODEL` and `_EMB_LOADING` of lines 14–15. -/
structure EmbState where
  EMB_MODEL : Option SentenceTransformer
  EMB_LOADING : Bool

/-- Lines 17–32.  `env` is `os.environ.get("ENABLE_EMBEDDINGS")`
(`none` when unset); `load` is the outcome of the
`SentenceTransformer(...)` constructor call, should it run (`none`
models an exception).  Returns the value returned to the caller, the
updated global state, and whether the load body was entered — the
last component observes how many load attempts a call sequence makes.
Note the `finally` clause always clears `_EMB_LOADING`, and a failed
load leaves `EMB_MODEL = None`. -/
def get_embedding_model (env : Option String) (load : Option SentenceTransformer)
    (st : EmbState) : Option SentenceTransformer × EmbState × Bool :=
  if env.getD "0" ≠ "1" then (none, st, false)
  else if st.EMB_MODEL.isNone && !st.EMB_LOADING then
    match load with
    | some m => (some m, ⟨some m, false⟩, true)
    | none => (none, ⟨none, false⟩, true)
  else (st.EMB_MODEL, st, false)

/-! Concrete fixtures used by the witness theorems: a two-hit upstream
response (one hit with a title, one without), and a short-abstract hit. -/

/-- A raw hit carrying a title and a short abstract. -/
def hitA : Json := Json.obj [("title", Json.str "A"), ("abstractText", Json.str "alpha")]

/-- A raw hit with no title and a `pmcid`-less identifier. -/
def hitB : Json := Json.obj [("id", Json.str "PMC7"), ("abstractText", Json.str "beta")]

/-- An upstream response body holding the two hits above. -/
def dataAB : Json :=
  Json.obj [("resultList", Json.obj [("result", Json.arr [hitA, hitB])])]

/-- The match record `parseHit` produces for `hitA`. -/
def matchA : MatchRecord :=
  { title := Json.str "A", abstract := "alpha", snippet := "alpha",
    journal := Json.str "", year := Json.str "", source := "EuropePMC",
    url := Json.str "https://europepmc.org/article/pmc/None" }

/-- The match record `parseHit` produces for `hitB`. -/
def matchB : MatchRecord :=
  { title := Json.null, abstract := "beta", snippet := "beta",
    journal := Json.str "", year := Json.str "", source := "EuropePMC",
    url := Json.str "https://europepmc.org/article/pmc/PMC7" }

/-- A raw hit whose abstract is shorter than 400 characters. -/
def hitShort : Json := Json.obj [("abstractText", Json.str "short")]

/-- The match record `parseHit` produces for `hitShort`. -/
def matchShort : MatchRecord :=
  { title := Json.null, abstract := "short", snippet := "short",
    journal := Json.str "", year := Json.str "", source := "EuropePMC",
    url := Json.str "https://europepmc.org/article/pmc/None" }

/-! Helper lemmas about the embedded pipeline. -/

/-- Unfolding of `parseHit` on a mapping hit: every `hit.get` succeeds
and only the type of the (defaulted) abstract decides success. -/
theorem parseHit_obj (fs : List (String × Json)) :
    parseHit (Json.obj fs) =
      match pyOr ((fs.lookup "abstractText").getD Json.null) (Json.str "") with
      | .str abstract =>
          Except.ok
            { title := (fs.lookup "title").getD Json.null
              abstract := abstract
              snippet := pySlice abstract 400 ++
                (if abstract.length > 400 then "..." else "")
              journal := pyOr ((fs.lookup "journalTitle").getD Json.null) (Json.str "")
              year := pyOr ((fs.lookup "pubYear").getD Json.null) (Json.str "")
              source := "EuropePMC"
              url := pyOr ((fs.lookup "source").getD Json.null)
                (Json.str ("https://europepmc.org/article/pmc/" ++
                  pyStr (pyOr ((fs.lookup "pmcid").getD Json.null)
                    ((fs.lookup "id").getD Json.null)))) }
      | _ => Except.error "TypeError: slice of non-string abstract" := rfl

/-- A successfully parsed hit is a mapping and its snippet is computed
from its abstract by the 400-character truncation rule. -/
theorem parseHit_ok_snippet {hit : Json} {m : MatchRecord}
    (h : parseHit hit = Except.ok m) :
    m.snippet = pySlice m.abstract 400 ++
      (if m.abstract.length > 400 then "..." else "") := by
  cases hit with
  | obj fs =>
      rw [parseHit_obj] at h
      split at h
      · cases h
        rfl
      · cases h
  | null => cases h
  | bool b => cases h
  | num n => cases h
  | str s => cases h
  | arr xs => cases h

/-- The title of a successfully parsed hit is the raw `title` value,
defaulted to `None` when the key is absent. -/
theorem parseHit_ok_title {fs : List (String × Json)} {m : MatchRecord}
    (h : parseHit (Json.obj fs) = Except.ok m) :
    m.title = (fs.lookup "title").getD Json.null := by
  rw [parseHit_obj] at h
  split at h
  · cases h
    rfl
  · cases h

/-- The loop `parseHits` preserves the hit count on success. -/
theorem parseHits_length :
    ∀ {hits : List Json} {ms : List MatchRecord},
      parseHits hits = Except.ok ms → ms.length = hits.length := by
  intro hits
  induction hits with
  | nil =>
      intro ms h
      cases h
      rfl
  | cons a t ih =>
      intro ms h
      unfold parseHits at h
      cases hpa : parseHit a with
      | error e => rw [hpa] at h; cases h
      | ok m =>
          rw [hpa] at h
          cases hpt : parseHits t with
          | error e => rw [hpt] at h; cases h
          | ok ms' =>
              rw [hpt] at h
              cases h
              simp [ih hpt]

/-- The index permutation of line 97 has one entry per match. -/
theorem length_rankOrder (ss : List ℚ) (n : Nat) : (rankOrder ss n).length = n := by
  simp [rankOrder]

/-- Reordering by score never changes the number of matches. -/
theorem applyRanking_length (rs : List MatchRecord) (ss : List ℚ) :
    (applyRanking rs ss).length = rs.length := by
  unfold applyRanking
  split
  · simp [length_rankOrder]
  · rfl

/-- The embedding step never changes the number of matches. -/
theorem finalResults_length (rs : List MatchRecord) (rank : RankOutcome) :
    (finalResults rs rank).length = rs.length := by
  cases rank with
  | scores ss =>
      simp only [finalResults]
      split
      · exact applyRanking_length rs ss
      · rfl
  | unavailable => rfl
  | failed => rfl

/-- Non-empty input plus a successful, parseable upstream response
always produce the 200 payload assembled from the final match list. -/
theorem query_success (req : QueryRequest) (fetch : String → Int → FetchResult)
    (rank : RankOutcome) (data : Json) (results0 : List MatchRecord)
    (hsym : pyStrip req.symptoms ≠ "")
    (hfetch : fetch (pyStrip req.symptoms) req.top_k = FetchResult.ok data)
    (hext : extractResults data = Except.ok results0) :
    query_literature req fetch rank =
      ApiResult.success (summary_placeholder (finalResults results0 rank).length)
        (finalResults results0 rank)
        ((finalResults results0 rank).map citationOf) := by
  unfold query_literature
  rw [if_neg hsym]
  simp only [hfetch, hext]

/-! Claim theorems. -/

/-- Claim C1: for every request in which the ranking step reports
unavailable (embeddings disabled or model not loaded) or raises any
internal error, the pipeline does not fail the request and the order of
matches in the response equals the order of hits as returned by the
search client (identity — no reordering). -/
theorem ranking_fallback_keeps_order (req : QueryRequest)
    (fetch : String → Int → FetchResult) (rank : RankOutcome) (data : Json)
    (results0 : List MatchRecord)
    (hsym : pyStrip req.symptoms ≠ "")
    (hfetch : fetch (pyStrip req.symptoms) req.top_k = FetchResult.ok data)
    (hext : extractResults data = Except.ok results0)
    (hrank : rank = RankOutcome.unavailable ∨ rank = RankOutcome.failed) :
    query_literature req fetch rank =
      ApiResult.success (summary_placeholder results0.length) results0
        (results0.map citationOf) := by
  have h := query_success req fetch rank data results0 hsym hfetch hext
  rcases hrank with h1 | h1 <;> subst h1 <;> exact h

set_option maxRecDepth 8192 in
/-- Witness for C1 at a concrete two-hit response with ranking
unavailable: matches come back in upstream order. -/
theorem ranking_fallback_keeps_order_witness :
    query_literature { symptoms := "fever", top_k := 5 }
        (fun _ _ => FetchResult.ok dataAB) RankOutcome.unavailable =
      ApiResult.success (summary_placeholder [matchA, matchB].length)
        [matchA, matchB] ([matchA, matchB].map citationOf) :=
  ranking_fallback_keeps_order { symptoms := "fever", top_k := 5 }
    (fun _ _ => FetchResult.ok dataAB) RankOutcome.unavailable dataAB
    [matchA, matchB] (by decide) rfl rfl (Or.inl rfl)

/-- Claim C2: for every request whose outbound search call times out,
fails to connect, or returns a non-success HTTP status, the service
returns HTTP 502 whose detail is the upstream failure message, and
never raises an unhandled internal error from the search step. -/
theorem search_failure_returns_502 (req : QueryRequest)
    (fetch : String → Int → FetchResult) (rank : RankOutcome) (msg : String)
    (hsym : pyStrip req.symptoms ≠ "")
    (hfetch : fetch (pyStrip req.symptoms) req.top_k = FetchResult.fail msg) :
    query_literature req fetch rank = ApiResult.httpError 502 msg := by
  unfold query_literature
  rw [if_neg hsym]
  simp only [hfetch]

/-- Witness for C2 at a concrete failing upstream call. -/
theorem search_failure_returns_502_witness :
    query_literature { symptoms := "fever", top_k := 5 }
        (fun _ _ => FetchResult.fail "upstream timeout") RankOutcome.unavailable =
      ApiResult.httpError 502 "upstream timeout" :=
  search_failure_returns_502 { symptoms := "fever", top_k := 5 }
    (fun _ _ => FetchResult.fail "upstream timeout") RankOutcome.unavailable
    "upstream timeout" (by decide) rfl

/-- Claim C3: for every request whose symptoms field is empty or
consists only of whitespace after trimming, the service returns HTTP
400 with detail exactly "No symptoms provided", and no outbound search
call is made (the response is independent of the search oracle and of
the ranking outcome). -/
theorem empty_symptoms_returns_400 (req : QueryRequest)
    (h : pyStrip req.symptoms = "") :
    ∀ (fetch fetch2 : String → Int → FetchResult) (rank rank2 : RankOutcome),
      query_literature req fetch rank =
          ApiResult.httpError 400 "No symptoms provided" ∧
        query_literature req fetch rank = query_literature req fetch2 rank2 := by
  intro fetch fetch2 rank rank2
  constructor
  · unfold query_literature
    rw [if_pos h]
  · unfold query_literature
    rw [if_pos h, if_pos h]

/-- Witness for C3 at a whitespace-only symptom string. -/
theorem empty_symptoms_returns_400_witness :
    query_literature { symptoms := "   ", top_k := 5 }
        (fun _ _ => FetchResult.ok dataAB) RankOutcome.unavailable =
      ApiResult.httpError 400 "No symptoms provided" ∧
    query_literature { symptoms := "   ", top_k := 5 }
        (fun _ _ => FetchResult.ok dataAB) RankOutcome.unavailable =
      query_literature { symptoms := "   ", top_k := 5 }
        (fun _ _ => FetchResult.fail "x") RankOutcome.failed :=
  empty_symptoms_returns_400 { symptoms := "   ", top_k := 5 } (by decide)
    (fun _ _ => FetchResult.ok dataAB) (fun _ _ => FetchResult.fail "x")
    RankOutcome.unavailable RankOutcome.failed

/-- Transitivity of `scoreLe`. -/
theorem scoreLe_trans (ss : List ℚ) :
    ∀ a b c : Nat, scoreLe ss a b → scoreLe ss b c → scoreLe ss a c := by
  intro a b c hab hbc
  simp only [scoreLe, decide_eq_true_eq] at hab hbc ⊢
  exact le_trans hbc hab

/-- Totality of `scoreLe`. -/
theorem scoreLe_total (ss : List ℚ) :
    ∀ a b : Nat, scoreLe ss a b || scoreLe ss b a := by
  intro a b
  simp only [scoreLe, Bool.or_eq_true, decide_eq_true_eq]
  exact le_total _ _

/-- The index permutation is sorted by descending score. -/
theorem rankOrder_pairwise (ss : List ℚ) (n : Nat) :
    (rankOrder ss n).Pairwise fun i j => ss.getD j 0 ≤ ss.getD i 0 := by
  have h2 : (rankOrder ss n).Pairwise fun i j => scoreLe ss i j :=
    List.sorted_mergeSort (scoreLe_trans ss) (scoreLe_total ss) (List.range n)
  exact h2.imp fun hab => by simpa [scoreLe, decide_eq_true_eq] using hab

/-- The index permutation has no duplicate indices. -/
theorem rankOrder_nodup (ss : List ℚ) (n : Nat) : (rankOrder ss n).Nodup :=
  ((List.mergeSort_perm (List.range n) (scoreLe ss)).symm).nodup (List.nodup_range n)

/-- Every entry of the index permutation indexes into the match list. -/
theorem rankOrder_mem_lt (ss : List ℚ) (n i : Nat) (h : i ∈ rankOrder ss n) :
    i < n :=
  List.mem_range.mp (List.mem_mergeSort.mp h)

/-- An increasing pair below `n` is a sublist of `range n`. -/
theorem pair_sublist_range {b a n : Nat} (hba : b < a) (han : a < n) :
    List.Sublist [b, a] (List.range n) := by
  have h1 : List.Sublist [b] (List.range a) :=
    List.singleton_sublist.mpr (List.mem_range.mpr hba)
  have h2 : List.Sublist ([b] ++ [a]) (List.range a ++ [a]) :=
    h1.append (List.Sublist.refl [a])
  have h3 : List.range a ++ [a] = List.range (a + 1) := (List.range_succ a).symm
  rw [h3] at h2
  exact h2.trans (List.range_sublist.mpr han)

/-- A two-element sublist occurs at a strictly increasing pair of
positions. -/
theorem sublist_pair_get {α : Type} {x y : α} :
    ∀ {l : List α}, List.Sublist [x, y] l →
      ∃ (i j : Nat) (hi : i < l.length) (hj : j < l.length),
        i < j ∧ l.get ⟨i, hi⟩ = x ∧ l.get ⟨j, hj⟩ = y := by
  intro l
  induction l with
  | nil => intro h; simp at h
  | cons z t ih =>
      intro h
      cases h with
      | cons a h2 =>
          obtain ⟨i, j, hi, hj, hij, hx, hy⟩ := ih h2
          refine ⟨i + 1, j + 1, ?_, ?_, ?_, hx, hy⟩
          · simpa using Nat.succ_lt_succ hi
          · simpa using Nat.succ_lt_succ hj
          · omega
      | cons₂ a h2 =>
          have hmem : y ∈ t := List.singleton_sublist.mp h2
          obtain ⟨⟨j, hj⟩, hget⟩ := List.get_of_mem hmem
          refine ⟨0, j + 1, ?_, ?_, ?_, rfl, hget⟩
          · simp
          · simpa using Nat.succ_lt_succ hj
          · omega

/-- Stability of the index permutation: two positions carrying equal
scores keep their original (index) order. -/
theorem rankOrder_stable (ss : List ℚ) (n p q : Nat)
    (hp : p < (rankOrder ss n).length) (hq : q < (rankOrder ss n).length)
    (hpq : p < q)
    (heq : ss.getD ((rankOrder ss n).get ⟨p, hp⟩) 0 =
      ss.getD ((rankOrder ss n).get ⟨q, hq⟩) 0) :
    (rankOrder ss n).get ⟨p, hp⟩ < (rankOrder ss n).get ⟨q, hq⟩ := by
  by_contra hcon
  have hnd := rankOrder_nodup ss n
  have hne : (rankOrder ss n).get ⟨p, hp⟩ ≠ (rankOrder ss n).get ⟨q, hq⟩ := by
    intro he
    have h2 : (⟨p, hp⟩ : Fin (rankOrder ss n).length) = ⟨q, hq⟩ :=
      (List.Nodup.get_inj_iff hnd).mp he
    have h3 : p = q := congrArg Fin.val h2
    omega
  have hba : (rankOrder ss n).get ⟨q, hq⟩ < (rankOrder ss n).get ⟨p, hp⟩ := by
    omega
  have han : (rankOrder ss n).get ⟨p, hp⟩ < n :=
    rankOrder_mem_lt ss n _ (List.get_mem _ _ _)
  have hle : scoreLe ss ((rankOrder ss n).get ⟨q, hq⟩) ((rankOrder ss n).get ⟨p, hp⟩) := by
    simp only [scoreLe, decide_eq_true_eq]
    exact le_of_eq heq
  have hsub2 : List.Sublist [(rankOrder ss n).get ⟨q, hq⟩, (rankOrder ss n).get ⟨p, hp⟩]
      (rankOrder ss n) :=
    List.pair_sublist_mergeSort (scoreLe_trans ss) (scoreLe_total ss) hle
      (pair_sublist_range hba han)
  obtain ⟨i, j, hi, hj, hij, hgi, hgj⟩ := sublist_pair_get hsub2
  have hiq : i = q := by
    have h2 : (⟨i, hi⟩ : Fin (rankOrder ss n).length) = ⟨q, hq⟩ :=
      (List.Nodup.get_inj_iff hnd).mp hgi
    exact congrArg Fin.val h2
  have hjp : j = p := by
    have h2 : (⟨j, hj⟩ : Fin (rankOrder ss n).length) = ⟨p, hp⟩ :=
      (List.Nodup.get_inj_iff hnd).mp hgj
    exact congrArg Fin.val h2
  omega

/-- Claim C4: for every request where ranking is enabled and succeeds,
the output matches are the original matches permuted by the descending
stable sort of the similarity scores: for output positions p < q the
score at p is ≥ the score at q, and equal-score matches retain their
original relative order. -/
theorem ranking_sorted_and_stable (req : QueryRequest)
    (fetch : String → Int → FetchResult) (ss : List ℚ) (data : Json)
    (results0 : List MatchRecord)
    (hsym : pyStrip req.symptoms ≠ "")
    (hfetch : fetch (pyStrip req.symptoms) req.top_k = FetchResult.ok data)
    (hext : extractResults data = Except.ok results0)
    (hne : results0 ≠ [])
    (hlen : results0.length ≤ ss.length) :
    query_literature req fetch (RankOutcome.scores ss) =
      ApiResult.success (summary_placeholder results0.length)
        ((rankOrder ss results0.length).map fun i => results0.getD i default)
        (((rankOrder ss results0.length).map fun i => results0.getD i default).map
          citationOf) ∧
    (∀ (p q : Nat) (hp : p < (rankOrder ss results0.length).length)
        (hq : q < (rankOrder ss results0.length).length), p < q →
      ss.getD ((rankOrder ss results0.length).get ⟨q, hq⟩) 0 ≤
        ss.getD ((rankOrder ss results0.length).get ⟨p, hp⟩) 0) ∧
    (∀ (p q : Nat) (hp : p < (rankOrder ss results0.length).length)
        (hq : q < (rankOrder ss results0.length).length), p < q →
      ss.getD ((rankOrder ss results0.length).get ⟨p, hp⟩) 0 =
        ss.getD ((rankOrder ss results0.length).get ⟨q, hq⟩) 0 →
      (rankOrder ss results0.length).get ⟨p, hp⟩ <
        (rankOrder ss results0.length).get ⟨q, hq⟩) := by
  refine ⟨?_, ?_, ?_⟩
  · have h := query_success req fetch (RankOutcome.scores ss) data results0 hsym
      hfetch hext
    have hfr : finalResults results0 (RankOutcome.scores ss) =
        (rankOrder ss results0.length).map fun i => results0.getD i default := by
      simp only [finalResults]
      have hemp : (results0.map rankText).isEmpty = false := by
        cases results0 with
        | nil => exact absurd rfl hne
        | cons a t => rfl
      rw [hemp]
      simp only [Bool.not_false, if_true]
      unfold applyRanking
      rw [if_pos hlen]
    have hlen2 : ((rankOrder ss results0.length).map fun i =>
        results0.getD i default).length = results0.length := by
      simp [length_rankOrder]
    rw [h, hfr, hlen2]
  · intro p q hp hq hpq
    have h := List.pairwise_iff_getElem.mp (rankOrder_pairwise ss results0.length)
      p q (by simpa using hp) (by simpa using hq) hpq
    simpa [List.get_eq_getElem] using h
  · intro p q hp hq hpq heq
    exact rankOrder_stable ss results0.length p q hp hq hpq heq

set_option maxRecDepth 8192 in
/-- Witness for C4 at a concrete two-hit response with scores [1, 2]:
the pipeline returns the matches permuted by the stable descending
sort. -/
theorem ranking_sorted_and_stable_witness :
    query_literature { symptoms := "fever", top_k := 5 }
        (fun _ _ => FetchResult.ok dataAB) (RankOutcome.scores [1, 2]) =
      ApiResult.success (summary_placeholder [matchA, matchB].length)
        ((rankOrder [1, 2] [matchA, matchB].length).map fun i =>
          [matchA, matchB].getD i default)
        (((rankOrder [1, 2] [matchA, matchB].length).map fun i =>
          [matchA, matchB].getD i default).map citationOf) :=
  (ranking_sorted_and_stable { symptoms := "fever", top_k := 5 }
    (fun _ _ => FetchResult.ok dataAB) [1, 2] dataAB [matchA, matchB]
    (by decide) rfl rfl (by simp) (by decide)).1

/-- Reduction of a successful `Except` bind (the do-notation steps of
`hitList` and `extractResults`). -/
theorem except_ok_bind {ε α β : Type} (a : α) (f : α → Except ε β) :
    ((Except.ok a : Except ε α) >>= f) = f a := rfl

/-- Reading a key from a mapping returns the bound value or the default. -/
theorem pyGetD_obj (fs : List (String × Json)) (k : String) (d : Json) :
    pyGetD (Json.obj fs) k d = Except.ok ((fs.lookup k).getD d) := rfl

set_option maxRecDepth 4096 in
/-- Counterexample to C5 as stated: a present-but-malformed
`resultList` (a number instead of a mapping) does not yield an empty
match list — the `.get` attribute access raises and the request fails
with an uncaught internal error (FastAPI's generic 500), not a 200 with
zero matches. -/
theorem malformed_structure_fails_request :
    query_literature { symptoms := "fever", top_k := 5 }
        (fun _ _ => FetchResult.ok (Json.obj [("resultList", Json.num 5)]))
        RankOutcome.unavailable =
      ApiResult.internalError "AttributeError: get on non-dict" := rfl

/-- Claim C5 (amended): parsing is defensive against an absent
structure only — a missing `resultList` key, or a `resultList` mapping
without a `result` key, yields an empty match list; but when the body
or the `resultList` value is not a mapping, or the `result` value is
not iterable, the parse raises and the request fails. -/
theorem defensive_parsing_amended :
    (∀ fs : List (String × Json), fs.lookup "resultList" = none →
      extractResults (Json.obj fs) = Except.ok []) ∧
    (∀ fs gs : List (String × Json), fs.lookup "resultList" = some (Json.obj gs) →
      gs.lookup "result" = none → extractResults (Json.obj fs) = Except.ok []) ∧
    (∀ n : Int, extractResults (Json.num n) =
      Except.error "AttributeError: get on non-dict") ∧
    (∀ (fs : List (String × Json)) (n : Int),
      fs.lookup "resultList" = some (Json.num n) →
      extractResults (Json.obj fs) = Except.error "AttributeError: get on non-dict") ∧
    (∀ (fs gs : List (String × Json)) (n : Int),
      fs.lookup "resultList" = some (Json.obj gs) →
      gs.lookup "result" = some (Json.num n) →
      extractResults (Json.obj fs) =
        Except.error "TypeError: object is not iterable") := by
  refine ⟨?_, ?_, ?_, ?_, ?_⟩
  · intro fs h
    simp only [extractResults, hitList, pyGetD_obj, except_ok_bind]
    rw [h]
    rfl
  · intro fs gs h1 h2
    simp only [extractResults, hitList, pyGetD_obj, except_ok_bind]
    rw [h1]
    simp only [Option.getD_some, pyGetD_obj, except_ok_bind]
    rw [h2]
    rfl
  · intro n
    rfl
  · intro fs n h
    simp only [extractResults, hitList, pyGetD_obj, except_ok_bind]
    rw [h]
    rfl
  · intro fs gs n h1 h2
    simp only [extractResults, hitList, pyGetD_obj, except_ok_bind]
    rw [h1]
    simp only [Option.getD_some, pyGetD_obj, except_ok_bind]
    rw [h2]
    rfl

/-- Witness for the amended C5: an empty response mapping yields an
empty match list. -/
theorem defensive_parsing_amended_witness :
    extractResults (Json.obj []) = Except.ok [] :=
  defensive_parsing_amended.1 [] rfl

/-- Counterexample to C6 as stated: with embeddings enabled, a failed
first load leaves `EMB_MODEL = None` and `_EMB_LOADING = False` (the
`finally` clause clears the flag), so the next call enters the load
body again — a second attempt — and can even succeed.  The ranker is
therefore not permanently unavailable after a failed first load, and
the load is not attempted at most once per process lifetime. -/
theorem load_retried_after_failure :
    (get_embedding_model (some "1") none ⟨none, false⟩).2.2 = true ∧
    (get_embedding_model (some "1") (some ⟨"all-MiniLM-L6-v2"⟩)
        (get_embedding_model (some "1") none ⟨none, false⟩).2.1).2.2 = true ∧
    (get_embedding_model (some "1") (some ⟨"all-MiniLM-L6-v2"⟩)
        (get_embedding_model (some "1") none ⟨none, false⟩).2.1).1 =
      some ⟨"all-MiniLM-L6-v2"⟩ :=
  ⟨rfl, rfl, rfl⟩

/-- Claim C6 (amended): initialization is lazy and gated by the opt-in
flag; a successful load is memoized, so at most one successful load
occurs per process lifetime; but after a failed load the guard is back
in its initial state, so any later call with the model still absent
re-attempts the load (no permanent unavailability, retry per request). -/
theorem lazy_memoized_load_amended :
    (∀ (env : Option String) (load : Option SentenceTransformer) (st : EmbState),
      env.getD "0" ≠ "1" → get_embedding_model env load st = (none, st, false)) ∧
    (∀ (load : Option SentenceTransformer) (st : EmbState) (m : SentenceTransformer),
      st.EMB_MODEL = some m →
      get_embedding_model (some "1") load st = (some m, st, false)) ∧
    (∀ load : Option SentenceTransformer,
      (get_embedding_model (some "1") load ⟨none, false⟩).2.2 = true) := by
  refine ⟨?_, ?_, ?_⟩
  · intro env load st h
    unfold get_embedding_model
    rw [if_pos h]
  · intro load st m h
    unfold get_embedding_model
    rw [if_neg (by decide), if_neg (by simp [h]), h]
  · intro load
    cases load with
    | none => rfl
    | some m => rfl

/-- Witness for the amended C6: with a model already memoized, a call
returns it with no load attempt and no state change. -/
theorem lazy_memoized_load_amended_witness :
    get_embedding_model (some "1") none ⟨some ⟨"all-MiniLM-L6-v2"⟩, false⟩ =
      (some ⟨"all-MiniLM-L6-v2"⟩, ⟨some ⟨"all-MiniLM-L6-v2"⟩, false⟩, false) :=
  lazy_memoized_load_amended.2.1 none ⟨some ⟨"all-MiniLM-L6-v2"⟩, false⟩
    ⟨"all-MiniLM-L6-v2"⟩ rfl

/-- Claim C7: for every parsed hit, the snippet is a deterministic
function of the abstract: when the abstract exceeds 400 characters the
snippet is its first 400 characters followed by "..."; otherwise the
snippet is the abstract unchanged (no ellipsis appended). -/
theorem snippet_truncation (hit : Json) (m : MatchRecord)
    (h : parseHit hit = Except.ok m) :
    (m.abstract.length > 400 → m.snippet = pySlice m.abstract 400 ++ "...") ∧
    (m.abstract.length ≤ 400 → m.snippet = m.abstract) := by
  have hs := parseHit_ok_snippet h
  constructor
  · intro h400
    rw [hs, if_pos h400]
  · intro hle
    rw [hs, if_neg (by omega), String.append_empty]
    unfold pySlice
    rw [List.take_of_length_le hle]

/-- Witness for C7 at a 5-character abstract: the snippet equals the
abstract with no ellipsis. -/
theorem snippet_truncation_witness :
    matchShort.abstract.length ≤ 400 ∧ matchShort.snippet = matchShort.abstract :=
  ⟨by decide, (snippet_truncation hitShort matchShort rfl).2 (by decide)⟩

/-- Claim C8: for every non-empty symptom input with a successful
upstream response, the response's matches length equals the number of
hits returned by the search service, the citations list has exactly one
entry per match in the same order as the final matches list, each
citation formatted by `citationOf` ("{title} — {journal} ({year}) —
{url}"), and the summary string contains the final match count. -/
theorem response_shape (req : QueryRequest) (fetch : String → Int → FetchResult)
    (rank : RankOutcome) (data : Json) (hits : List Json)
    (results0 : List MatchRecord)
    (hsym : pyStrip req.symptoms ≠ "")
    (hfetch : fetch (pyStrip req.symptoms) req.top_k = FetchResult.ok data)
    (hhits : hitList data = Except.ok hits)
    (hparse : parseHits hits = Except.ok results0) :
    isSuccess (query_literature req fetch rank) = true ∧
    (responseMatches (query_literature req fetch rank)).length = hits.length ∧
    responseCitations (query_literature req fetch rank) =
      (responseMatches (query_literature req fetch rank)).map citationOf ∧
    (responseCitations (query_literature req fetch rank)).length =
      (responseMatches (query_literature req fetch rank)).length ∧
    responseSummary (query_literature req fetch rank) =
      "SUMMARY (placeholder): Found " ++
        toString (responseMatches (query_literature req fetch rank)).length ++
        " articles. Replace this with LLM-generated educational summary that cites sources." := by
  have hext : extractResults data = Except.ok results0 := by
    simp only [extractResults, hhits, except_ok_bind]
    exact hparse
  have h := query_success req fetch rank data results0 hsym hfetch hext
  rw [h]
  refine ⟨rfl, ?_, rfl, ?_, rfl⟩
  · show (finalResults results0 rank).length = hits.length
    rw [finalResults_length]
    exact parseHits_length hparse
  · simp [responseCitations, responseMatches]

set_option maxRecDepth 8192 in
/-- Witness for C8 at a concrete two-hit response (ranking failed, so
original order): two matches, two citations, summary mentioning 2. -/
theorem response_shape_witness :
    isSuccess (query_literature { symptoms := "fever", top_k := 5 }
        (fun _ _ => FetchResult.ok dataAB) RankOutcome.failed) = true ∧
    (responseMatches (query_literature { symptoms := "fever", top_k := 5 }
        (fun _ _ => FetchResult.ok dataAB) RankOutcome.failed)).length =
      [hitA, hitB].length ∧
    responseCitations (query_literature { symptoms := "fever", top_k := 5 }
        (fun _ _ => FetchResult.ok dataAB) RankOutcome.failed) =
      (responseMatches (query_literature { symptoms := "fever", top_k := 5 }
        (fun _ _ => FetchResult.ok dataAB) RankOutcome.failed)).map citationOf ∧
    (responseCitations (query_literature { symptoms := "fever", top_k := 5 }
        (fun _ _ => FetchResult.ok dataAB) RankOutcome.failed)).length =
      (responseMatches (query_literature { symptoms := "fever", top_k := 5 }
        (fun _ _ => FetchResult.ok dataAB) RankOutcome.failed)).length ∧
    responseSummary (query_literature { symptoms := "fever", top_k := 5 }
        (fun _ _ => FetchResult.ok dataAB) RankOutcome.failed) =
      "SUMMARY (placeholder): Found " ++
        toString (responseMatches (query_literature { symptoms := "fever", top_k := 5 }
          (fun _ _ => FetchResult.ok dataAB) RankOutcome.failed)).length ++
        " articles. Replace this with LLM-generated educational summary that cites sources." :=
  response_shape { symptoms := "fever", top_k := 5 }
    (fun _ _ => FetchResult.ok dataAB) RankOutcome.failed dataAB [hitA, hitB]
    [matchA, matchB] (by decide) rfl rfl rfl

/-- Counterexample to C9 as stated: the request model places no sign
constraint on `top_k`, so a request carrying the non-positive
`top_k = -1` is accepted and the value reaches the outbound search call
unchanged — observed here through a search oracle that echoes its
page-size argument into the failure detail. -/
theorem topk_nonpositive_accepted :
    query_literature { symptoms := "fever", top_k := -1 }
        (fun _ n => FetchResult.fail (toString n)) RankOutcome.unavailable =
      ApiResult.httpError 502 "-1" ∧ ¬(0 < (-1 : Int)) :=
  ⟨rfl, by decide⟩

/-- Claim C9 (amended): `top_k` is an integer (not necessarily
positive) defaulting to 5 when the caller does not supply one, and it
is passed through unchanged to the outbound search call with no bound
— upper or lower — enforced. -/
theorem topk_default_and_passthrough :
    (∀ s : String, ({ symptoms := s } : QueryRequest).top_k = 5) ∧
    (∀ (s : String) (k : Int) (rank : RankOutcome), pyStrip s ≠ "" →
      query_literature { symptoms := s, top_k := k }
          (fun _ n => FetchResult.fail (toString n)) rank =
        ApiResult.httpError 502 (toString k)) := by
  constructor
  · intro s
    rfl
  · intro s k rank hs
    unfold query_literature
    rw [if_neg hs]

/-- Witness for the amended C9: the page size 9 is echoed by the
oracle, showing the unmodified passthrough. -/
theorem topk_default_and_passthrough_witness :
    query_literature { symptoms := "fever", top_k := 9 }
        (fun _ n => FetchResult.fail (toString n)) RankOutcome.unavailable =
      ApiResult.httpError 502 (toString (9 : Int)) :=
  topk_default_and_passthrough.2 "fever" 9 RankOutcome.unavailable (by decide)

/-- Claim C10: for every search hit that has no title field, the match
record's title is null, and the corresponding citation string renders
that null as the literal text "None" in the title position. -/
theorem missing_title_renders_none (fs : List (String × Json)) (m : MatchRecord)
    (hnt : fs.lookup "title" = none)
    (h : parseHit (Json.obj fs) = Except.ok m) :
    m.title = Json.null ∧
    citationOf m = "None — " ++ pyStr m.journal ++ " (" ++ pyStr m.year ++
      ") — " ++ pyStr m.url := by
  have ht : m.title = Json.null := by
    have h2 := parseHit_ok_title h
    rw [hnt] at h2
    exact h2
  refine ⟨ht, ?_⟩
  show pyStr m.title ++ " — " ++ pyStr m.journal ++ " (" ++ pyStr m.year ++
    ") — " ++ pyStr m.url = _
  rw [ht]
  rfl

/-- Witness for C10 at `hitB`, which has no title: the citation starts
with the literal text "None". -/
theorem missing_title_renders_none_witness :
    matchB.title = Json.null ∧
    citationOf matchB = "None — " ++ pyStr matchB.journal ++ " (" ++
      pyStr matchB.year ++ ") — " ++ pyStr matchB.url :=
  missing_title_renders_none
    [("id", Json.str "PMC7"), ("abstractText", Json.str "beta")] matchB rfl rfl
